import Mathlib

/-!
# ZeroPay — verification of the chain scanner, sweeper and x402 facilitator

Shallow embedding of the core of the ZeroPay payment service:

* the decimal codec (`u256_to_i32`, `i32_to_u256` from `scanner/src/evm.rs`);
* the sweeper `transfer` (identical in `scanner/src/evm.rs` and
  `scanner/src/evm/pay.rs`), modelled over an RPC oracle together with the
  trace of on-chain actions it issues;
* the per-chain scan loop (`Scanner::scan_iteration`, `handle_transfer_event`);
* the settlement engine's `ScannerService::handle_evm_deposit`;
* the x402 `Facilitator` and the EVM "exact" scheme (`handle_verify`,
  `handle_settle`, `sign_authorization`, `verify_authorization`).

Machine integers: `U256` is a natural number (wrapping subtraction is made
explicit where the source can underflow), `i32` results are integers,
addresses / hashes / signatures are abstracted as natural numbers.  Rust
`String` fields that are only ever consumed through `.parse()` are embedded
as the parse result (`Option Nat`: `none` means the string does not parse),
with the `u64` / `U256` range checks applied at each parse site.  External
cryptography (EIP-712 hashing, secp256k1 sign/recover) is an abstract
`CryptoModel`; fallible RPC calls are oracle fields of `Option` type.
-/

namespace ZeroPay

/-- `2^256`, the modulus of the `U256` type. -/
def U256MOD : Nat := 2 ^ 256

/-- `i32::MAX`. -/
def I32MAX : Nat := 2147483647

/-! ## Decimal codec (`scanner/src/evm.rs:290-306`) -/

/-- `u256_to_i32(amount, decimal)`: scale an atomic `U256` amount to
2-decimal minor units; `res.try_into().unwrap_or(0)` yields `0` whenever the
scaled value does not fit in an `i32`. -/
def u256_to_i32 (amount : Nat) (decimal : Nat) : Int :=
  let res : Nat :=
    if 2 < decimal then amount / 10 ^ (decimal - 2)
    else amount * 10 ^ (2 - decimal)
  if res ≤ I32MAX then (res : Int) else 0

/-- `i32_to_u256(amount, decimal)`: scale a 2-decimal minor amount to atomic
units.  (`U256::from` on a negative `i32` panics in the source; the claims
only use non-negative inputs, embedded via `Int.toNat`.) -/
def i32_to_u256 (amount : Int) (decimal : Nat) : Nat :=
  if 2 < decimal then amount.toNat * 10 ^ (decimal - 2)
  else amount.toNat / 10 ^ (2 - decimal)

/-! ## Sweeper (`scanner/src/evm.rs:178-283`, duplicated in
`scanner/src/evm/pay.rs:14-119`)

The sweeper talks to the chain through an RPC oracle; each fallible call is
an `Option` field (`none` = the RPC call or its receipt failed).  The
function returns the trace of on-chain transactions it issued, in order,
next to its result. -/

/-- One on-chain transaction issued by the sweeper. -/
inductive SweepAction where
  /-- Native-coin transfer of the approve gas from admin to customer. -/
  | sendNativeGas (to_ value : Nat)
  /-- `token.approve(spender, value)` signed by the customer key. -/
  | approve (spender value : Nat)
  /-- `token.transferFrom(from, to, value)` signed by the admin key. -/
  | transferFrom (from_ to_ value : Nat)
  deriving DecidableEq, Repr

/-- RPC oracle for one invocation of the sweeper. -/
structure SweepChain where
  /-- `eth_gasPrice` result. -/
  gasPrice : Option Nat
  /-- `token.balanceOf(customer)` result. -/
  balanceOf : Option Nat
  /-- `token.allowance(customer, admin)` result. -/
  allowance : Option Nat
  /-- gas estimate for the placeholder approve. -/
  estimateApproveGas : Option Nat
  /-- receipt of the native gas transfer (`none` = send or receipt failed). -/
  sendNativeReceipt : Option Unit
  /-- `token.totalSupply()` result (`unwrap_or` fallback applies on `none`). -/
  totalSupply : Option Nat
  /-- receipt of the customer's approve transaction. -/
  approveReceipt : Option Unit
  /-- receipt tx hash of `transferFrom(customer, merchant, real)`. -/
  transferFromMerchant : Option Nat
  /-- receipt tx hash of `transferFrom(customer, admin, fee)`. -/
  transferFromCommission : Option Nat

/-- Steps 4–5 of the sweep (`scanner/src/evm.rs:232-259`): forward the
approve gas and approve from the customer key, when needed.  Returns the
actions issued and whether both receipts arrived. -/
def approveStep (ch : SweepChain) (customer maccount : Nat)
    (need_approve : Bool) (approve_gas : Nat) :
    List SweepAction × Option Unit :=
  if need_approve then
    match ch.sendNativeReceipt with
    | none => ([.sendNativeGas customer approve_gas], none)
    | some _ =>
      let total := ch.totalSupply.getD 100000000000000
      match ch.approveReceipt with
      | none => ([.sendNativeGas customer approve_gas,
                  .approve maccount total], none)
      | some _ =>
        ([.sendNativeGas customer approve_gas,
          .approve maccount total], some ())
  else ([], some ())

/-- `transfer(customer, merchant, token, wallet, main, url, commission_rate,
commission_min, commission_max)` — the approve-then-`transferFrom` sweep.
Returns the issued-transaction trace and `(real, merchant tx hash)`.
`balance - fee` is the source's `U256` subtraction, embedded as explicit
wrapping. -/
def transfer (ch : SweepChain) (customer merchant maccount : Nat)
    (commission_rate : Int) (commission_min commission_max : Nat) :
    List SweepAction × Except String (Nat × Nat) :=
  match ch.gasPrice with
  | none => ([], .error "rpc")
  | some gasPrice0 =>
    let gas_price := gasPrice0 * 105 / 100
    match ch.balanceOf with
    | none => ([], .error "rpc")
    | some balance =>
      if balance = 0 then ([], .error "No balance")
      else
        match ch.allowance with
        | none => ([], .error "rpc")
        | some approved =>
          let need_approve := approved < balance
          -- approve_gas is only computed (and can only fail) when needed
          match (if need_approve then ch.estimateApproveGas.map
                   (fun gas => gas * 105 / 100 * gas_price)
                 else some 0) with
          | none => ([], .error "rpc")
          | some approve_gas =>
            let fee :=
              if 0 < commission_rate then
                max (min (balance * commission_rate.toNat / 100) commission_max)
                  commission_min
              else 0
            let real := (balance + (U256MOD - fee % U256MOD)) % U256MOD
            -- step 4/5: gas forwarding and approve, when needed
            match approveStep ch customer maccount need_approve approve_gas with
            | (tr0, none) => (tr0, .error "rpc")
            | (tr0, some _) =>
              -- step 6: transfer the remainder to the merchant
              let tr1 := tr0 ++ [.transferFrom customer merchant real]
              match ch.transferFromMerchant with
              | none => (tr1, .error "rpc")
              | some txHash =>
                if 0 < fee then
                  let tr2 := tr1 ++ [.transferFrom customer maccount fee]
                  match ch.transferFromCommission with
                  | none => (tr2, .error "rpc")
                  | some _ => (tr2, .ok (real, txHash))
                else (tr1, .ok (real, txHash))

/-! ## EVM chain scanner (`scanner/src/evm.rs:92-175`) -/

/-- A typed message pushed by a scanner into the engine's channel
(`ScannerMessage` with `ChainDeposit::Evm` inlined). -/
inductive ScannerMessage where
  /-- `Deposit(chain_idx, Evm(token, to, value, tx_hash))`. -/
  | deposit (index token to_ value txHash : Nat)
  /-- `Scanned(chain_idx, to_block)`. -/
  | scanned (index block : Nat)
  deriving DecidableEq, Repr

/-- An `eth_getLogs` entry as consumed by `handle_transfer_event`: the
contract address, the ERC-20 `Transfer` decode result (`none` = decode
failure) and the optional transaction hash. -/
structure EvmLog where
  /-- `log.address()`: the token contract. -/
  address : Nat
  /-- `Transfer::decode_log` result: `(from, to, value)` on success. -/
  decoded : Option (Nat × Nat × Nat)
  /-- `log.transaction_hash` (`B256::ZERO = 0` substituted when absent). -/
  transaction_hash : Option Nat

/-- `Scanner::handle_transfer_event(log)`: decode the log and push a
`Deposit` message; a decode failure is an error (logged and skipped by the
caller). -/
def handle_transfer_event (index : Nat) (log : EvmLog) :
    Except Unit ScannerMessage :=
  match log.decoded with
  | none => .error ()
  | some (_f, t, v) =>
    .ok (.deposit index log.address t v (log.transaction_hash.getD 0))

/-- Outcome of one `scan_iteration`. -/
structure ScanStep where
  /-- the `get_logs` block range `(from_block, to_block)`, when one was
  scanned. -/
  range : Option (Nat × Nat)
  /-- the `Scanned` message payload pushed into the channel. -/
  message : Option Nat
  /-- the new `last_scanned_block`. -/
  last : Nat
  /-- the returned `scanned_blocks` count. -/
  scanned : Nat
  deriving DecidableEq, Repr

/-- `Scanner::scan_iteration(max_blocks_per_scan)` with the RPC head block
given by the oracle value `head`.  State is `last_scanned_block`; no
message and an unchanged cursor when `latest ≤ last`. -/
def scan_iteration (latency : Nat) (maxBlocks : Nat) (last head : Nat) :
    ScanStep :=
  let latest := head - latency
  if latest ≤ last then ⟨none, none, last, 0⟩
  else
    let fromBlock := last + 1
    let toBlock := min (fromBlock + maxBlocks) latest
    ⟨some (fromBlock, toBlock), some toBlock, toBlock, toBlock - fromBlock + 1⟩

/-- The scan loop (`Scanner::run`, `max_blocks_per_scan = 100`) driven by a
list of successive RPC head observations; collects the `Scanned` cursor
values emitted, in channel order (= the order the engine persists them). -/
def scan_run (latency : Nat) : Nat → List Nat → List Nat
  | _, [] => []
  | last, head :: rest =>
    let step := scan_iteration latency 100 last head
    match step.message with
    | none => scan_run latency step.last rest
    | some toBlock => toBlock :: scan_run latency step.last rest

/-! ## Settlement engine (`scanner/src/lib.rs:254-312`)

`ScannerService::handle_evm_deposit` acts on storage through the
`ScannerStorage` capability set; lookups are oracle fields and the
persisting calls (`deposited`, the sweep `transfer`, `settled`) are recorded
in a trace. -/

/-- A persisting step taken by `handle_evm_deposit`. -/
inductive EngineAction where
  /-- `storage.deposited(identity, mid, cid, amount, tx)`. -/
  | deposited (mid cid : Nat) (amount : Int) (tx : Nat)
  /-- the on-chain sweep `evm::transfer(...)` was invoked. -/
  | sweep (customer merchant token : Nat)
  /-- `storage.settled(identity, did, amount, tx)`. -/
  | settled (did : Nat) (amount : Int) (tx : Nat)
  deriving DecidableEq, Repr

/-- Storage / environment oracle for one `handle_evm_deposit` call. -/
structure EngineEnv where
  /-- `storage.contains_address(to)`: `(mid, cid, merchant)` when the address
  is indexed, `none` when missing (the call errors). -/
  contains_address : Option (Nat × Nat × Option Nat)
  /-- `storage.no_transaction(tx)`: `none` when the tx is already seen. -/
  no_transaction : Option Unit
  /-- `storage.deposited(...)` result: the new deposit id. -/
  deposited : Option Nat
  /-- `generate_eth(mid, cid, mnemonics)` and the key parse: the customer
  secret key. -/
  generate_eth : Option Nat
  /-- the sweeper's RPC oracle. -/
  sweep : SweepChain

/-- Per-chain asset entry (`ChainAsset`): only the token decimal matters
here. -/
structure ChainAssetInfo where
  /-- token decimals. -/
  decimal : Nat
  deriving DecidableEq, Repr

/-- Chain entry of the engine (`Chain`): the asset map keyed by token
address and the commission configuration. -/
structure EngineChain where
  /-- `assets: token address → asset`. -/
  assets : List (Nat × ChainAssetInfo)
  /-- admin (main wallet) address. -/
  admin : Nat
  /-- `commission` percent. -/
  commission : Int
  /-- `commission_min` in minor units. -/
  commission_min : Int
  /-- `commission_max` in minor units. -/
  commission_max : Int

/-- `ScannerService::handle_evm_deposit(index, token, customer, value, tx)`:
classify, persist the deposit, sweep, record the settlement.  Returns the
trace of persisting steps next to the result. -/
def handle_evm_deposit (env : EngineEnv) (chain : EngineChain)
    (token customer value tx : Nat) :
    List EngineAction × Except Unit Unit :=
  -- 1. check address or transaction is exists
  match env.contains_address with
  | none => ([], .error ())
  | some (mid, cid, merchantStr) =>
    match env.no_transaction with
    | none => ([], .error ())
    | some _ =>
      match merchantStr with
      | none => ([], .error ())
      | some merchant =>
        -- 2. save the new deposited
        match chain.assets.lookup token with
        | none => ([], .error ())
        | some asset =>
          let amount := u256_to_i32 value asset.decimal
          let tr0 := [EngineAction.deposited mid cid amount tx]
          match env.deposited with
          | none => (tr0, .error ())
          | some did =>
            -- 2'. generate customer secret key
            match env.generate_eth with
            | none => (tr0, .error ())
            | some _sk =>
              -- 3. do transfer onchain
              let tr1 := tr0 ++ [EngineAction.sweep customer merchant token]
              match transfer env.sweep customer merchant chain.admin
                  chain.commission
                  (i32_to_u256 chain.commission_min asset.decimal)
                  (i32_to_u256 chain.commission_max asset.decimal) with
              | (_, .error _) => (tr1, .error ())
              | (_, .ok (settledAmount, settledTx)) =>
                -- 4. save the settled to deposit
                let samount := u256_to_i32 settledAmount asset.decimal
                (tr1 ++ [EngineAction.settled did samount settledTx], .ok ())

/-! ## x402 wire records (`x402/src/facilitator.rs`, `x402/src/scheme/evm.rs`)

String fields consumed via `.parse()` are embedded as the parse result:
`Option Nat` (`none` = the string does not parse at all); the `u64` /
`U256` range checks are applied at each parse site. -/

/-- `2^64`, the bound of a `u64` parse. -/
def U64MOD : Nat := 2 ^ 64

/-- `parse::<U256>()` applied to a numeric-string field. -/
def parseU256 (field : Option Nat) : Option Nat :=
  field.bind fun n => if n < U256MOD then some n else none

/-- `parse::<u64>()` applied to a numeric-string field. -/
def parseU64 (field : Option Nat) : Option Nat :=
  field.bind fun n => if n < U64MOD then some n else none

/-- The stable x402 error codes (`x402/src/lib.rs::Error`). -/
inductive Error where
  | InsufficientFunds
  | InvalidExactEvmPayloadAuthorizationValidAfter
  | InvalidExactEvmPayloadAuthorizationValidBefore
  | InvalidExactEvmPayloadAuthorizationValue
  | InvalidExactEvmPayloadSignature
  | InvalidExactEvmPayloadRecipientMismatch
  | InvalidNetwork
  | InvalidPayload
  | InvalidPaymentRequirements
  | InvalidScheme
  | UnsupportedScheme
  | InvalidX402Version
  | InvalidTransactionState
  | UnexpectedVerifyError
  | UnexpectedSettleError
  deriving DecidableEq, Repr

/-- `Error::to_code` (the code component). -/
def Error.to_code : Error → String
  | .InsufficientFunds => "insufficient_funds"
  | .InvalidExactEvmPayloadAuthorizationValidAfter =>
      "invalid_exact_evm_payload_authorization_valid_after"
  | .InvalidExactEvmPayloadAuthorizationValidBefore =>
      "invalid_exact_evm_payload_authorization_valid_before"
  | .InvalidExactEvmPayloadAuthorizationValue =>
      "invalid_exact_evm_payload_authorization_value"
  | .InvalidExactEvmPayloadSignature => "invalid_exact_evm_payload_signature"
  | .InvalidExactEvmPayloadRecipientMismatch =>
      "invalid_exact_evm_payload_recipient_mismatch"
  | .InvalidNetwork => "invalid_network"
  | .InvalidPayload => "invalid_payload"
  | .InvalidPaymentRequirements => "invalid_payment_requirements"
  | .InvalidScheme => "invalid_scheme"
  | .UnsupportedScheme => "unsupported_scheme"
  | .InvalidX402Version => "invalid_x402_version"
  | .InvalidTransactionState => "invalid_transaction_state"
  | .UnexpectedVerifyError => "unexpected_verify_error"
  | .UnexpectedSettleError => "unexpected_settle_error"

/-- EIP-3009 authorization, string fields as parse results: `from`/`to` as
address parses, `value`/`validAfter`/`validBefore` as the denoted decimal
number (unbounded; range-checked at each parse site), `nonce` as a `B256`
parse. -/
structure Authorization where
  from_addr : Option Nat
  to_addr : Option Nat
  value : Option Nat
  valid_after : Option Nat
  valid_before : Option Nat
  nonce : Option Nat

/-- `PaymentRequirements` (the fields the scheme reads). -/
structure PaymentRequirements where
  scheme : String
  network : String
  max_amount_required : Option Nat
  asset : Option Nat
  pay_to : Option Nat

/-- `SchemePayload`: the signature parse result and the authorization. -/
structure SchemePayload where
  signature : Option Nat
  authorization : Authorization

/-- `PaymentPayload`. -/
structure PaymentPayload where
  scheme : String
  network : String
  payload : SchemePayload

/-- `VerifyRequest`. -/
structure VerifyRequest where
  payment_payload : PaymentPayload
  payment_requirements : PaymentRequirements

/-- `VerifyResponse` (`payer` is the raw `auth.from`, embedded as its
parse). -/
structure VerifyResponse where
  is_valid : Bool
  payer : Option Nat
  invalid_reason : Option String
  deriving DecidableEq, Repr

/-- `SettlementResponse` (`transaction` is `none` for the empty string). -/
structure SettlementResponse where
  success : Bool
  error_reason : Option String
  transaction : Option Nat
  network : String
  payer : Option Nat
  deriving DecidableEq, Repr

/-- EIP-712 domain (`create_eip712_domain`). -/
structure Eip712Domain where
  name : String
  version : String
  chainId : Nat
  verifyingContract : Nat
  deriving DecidableEq, Repr

/-- The EIP-3009 `TransferWithAuthorization` struct, fully parsed. -/
structure TransferWithAuthorization where
  from_addr : Nat
  to_addr : Nat
  value : Nat
  valid_after : Nat
  valid_before : Nat
  nonce : Nat
  deriving DecidableEq, Repr

/-- `TransferWithAuthorization::from(auth)`: parse every field
(`value`/`validAfter`/`validBefore` as `U256`). -/
def TransferWithAuthorization.fromAuth (auth : Authorization) :
    Except Unit TransferWithAuthorization :=
  match auth.from_addr, auth.to_addr, parseU256 auth.value,
      parseU256 auth.valid_after, parseU256 auth.valid_before, auth.nonce with
  | some f, some t, some v, some va, some vb, some n =>
    .ok ⟨f, t, v, va, vb, n⟩
  | _, _, _, _, _, _ => .error ()

/-- Abstract model of the external cryptography: EIP-712 struct hashing and
secp256k1 sign / recover over 32-byte prehashes.  Signatures, hashes, keys
and addresses are opaque naturals. -/
structure CryptoModel where
  /-- `transfer.eip712_signing_hash(domain)`. -/
  signingHash : Eip712Domain → TransferWithAuthorization → Nat
  /-- `Signature::recover_address_from_prehash` (`none` = recovery error). -/
  recoverPrehash : Nat → Nat → Option Nat
  /-- `signer.sign_hash_sync(hash)` for the private key. -/
  signHash : Nat → Nat → Nat
  /-- `PrivateKeySigner::address()`. -/
  addrOf : Nat → Nat

/-- `sign_authorization(domain, auth, signer)`. -/
def sign_authorization (C : CryptoModel) (domain : Eip712Domain)
    (auth : Authorization) (priv : Nat) : Except Unit Nat :=
  match TransferWithAuthorization.fromAuth auth with
  | .error _ => .error ()
  | .ok transfer => .ok (C.signHash (C.signingHash domain transfer) priv)

/-- `verify_authorization(domain, auth, signature)`: recover the signer from
the EIP-712 prehash and require it to equal `auth.from`. -/
def verify_authorization (C : CryptoModel) (domain : Eip712Domain)
    (auth : Authorization) (signature : Nat) : Except Unit Unit :=
  match auth.from_addr with
  | none => .error ()
  | some signer =>
    match TransferWithAuthorization.fromAuth auth with
    | .error _ => .error ()
    | .ok transfer =>
      match C.recoverPrehash (C.signingHash domain transfer) signature with
      | none => .error ()
      | some recover => if recover = signer then .ok () else .error ()

/-! ## EVM "exact" scheme (`x402/src/scheme/evm.rs:62-327`) -/

/-- Cached asset of the scheme (`EvmAsset`). -/
structure EvmAsset where
  name : String
  version : String
  decimal : Nat
  domain : Eip712Domain

/-- RPC oracle of the scheme for one request. -/
structure EvmChainEnv where
  /-- `token.balanceOf(addr)` (`none` = RPC error). -/
  balanceOf : Nat → Nat → Option Nat
  /-- `token.authorizationState(from, nonce)`. -/
  authorizationState : Nat → Nat → Nat → Option Bool
  /-- `SystemTime::now().duration_since(UNIX_EPOCH)` in seconds. -/
  now : Option Nat
  /-- `token.transferWithAuthorization(from,to,value,va,vb,nonce,v,r,s)`:
  the receipt tx hash (`none` = send or receipt failed). -/
  twaSend : Nat → Nat → Nat → Nat → Nat → Nat → Nat → Nat → Option Nat

/-- `EvmScheme` (rpc endpoint and signer folded into the oracle). -/
structure EvmScheme where
  scheme : String
  network : String
  assets : List (Nat × EvmAsset)

/-- `EvmScheme::handle_verify(req)`: the six-step verification. -/
def handle_verify (S : EvmScheme) (C : CryptoModel) (ch : EvmChainEnv)
    (req : VerifyRequest) : Except Error Unit :=
  -- 1. signature validation
  match req.payment_requirements.asset with
  | none => .error .InvalidPaymentRequirements
  | some token =>
    match req.payment_payload.payload.signature with
    | none => .error .InvalidExactEvmPayloadSignature
    | some sign =>
      match S.assets.lookup token with
      | none => .error .InvalidPaymentRequirements
      | some asset =>
        let auth := req.payment_payload.payload.authorization
        if (verify_authorization C asset.domain auth sign).isOk = false then
          .error .InvalidExactEvmPayloadSignature
        else
          -- 2. balance verification
          match auth.from_addr with
          | none => .error .InvalidPayload
          | some from_addr =>
            match ch.balanceOf token from_addr with
            | none => .error .UnexpectedVerifyError
            | some balance =>
              -- 3. amount validation
              match parseU256 auth.value with
              | none => .error .InvalidPayload
              | some value =>
                match parseU256 req.payment_requirements.max_amount_required with
                | none => .error .InvalidPaymentRequirements
                | some required_amount =>
                  if balance < value then .error .InsufficientFunds
                  else if value < required_amount then
                    .error .InvalidExactEvmPayloadAuthorizationValue
                  else
                    -- 4. time window check
                    match ch.now with
                    | none => .error .UnexpectedVerifyError
                    | some now =>
                      match parseU64 auth.valid_after with
                      | none => .error .InvalidPayload
                      | some valid_after =>
                        match parseU64 auth.valid_before with
                        | none => .error .InvalidPayload
                        | some valid_before =>
                          if now < valid_after then
                            .error .InvalidExactEvmPayloadAuthorizationValidAfter
                          else if valid_before < now then
                            .error .InvalidExactEvmPayloadAuthorizationValidBefore
                          else
                            -- 5. parameter matching
                            match auth.to_addr with
                            | none => .error .InvalidPayload
                            | some to_addr =>
                              match req.payment_requirements.pay_to with
                              | none => .error .InvalidPaymentRequirements
                              | some expected_to =>
                                if to_addr ≠ expected_to then
                                  .error .InvalidExactEvmPayloadRecipientMismatch
                                else
                                  -- 6. authorization state (nonce not used)
                                  match auth.nonce with
                                  | none => .error .InvalidPayload
                                  | some nonce =>
                                    match ch.authorizationState token from_addr nonce with
                                    | none => .error .UnexpectedVerifyError
                                    | some is_used =>
                                      if is_used then
                                        .error .InvalidExactEvmPayloadSignature
                                      else .ok ()

/-- `EvmScheme::handle_settle(req)`: re-check registration, parse, and call
`transferWithAuthorization` from the admin signer. -/
def handle_settle (S : EvmScheme) (ch : EvmChainEnv) (req : VerifyRequest) :
    Except Error Nat :=
  match req.payment_requirements.asset with
  | none => .error .InvalidPaymentRequirements
  | some token =>
    if (S.assets.lookup token).isNone then .error .InvalidPaymentRequirements
    else
      let auth := req.payment_payload.payload.authorization
      match req.payment_payload.payload.signature with
      | none => .error .InvalidExactEvmPayloadSignature
      | some signature =>
        match auth.from_addr with
        | none => .error .InvalidPayload
        | some from_addr =>
          match auth.to_addr with
          | none => .error .InvalidPayload
          | some to_addr =>
            match parseU256 auth.value with
            | none => .error .InvalidPayload
            | some value =>
              match parseU256 auth.valid_after with
              | none => .error .InvalidPayload
              | some valid_after =>
                match parseU256 auth.valid_before with
                | none => .error .InvalidPayload
                | some valid_before =>
                  match auth.nonce with
                  | none => .error .InvalidPayload
                  | some nonce =>
                    match ch.twaSend token from_addr to_addr value valid_after
                        valid_before nonce signature with
                    | none => .error .InvalidTransactionState
                    | some txHash => .ok txHash

/-- Modelled from the spec: `Error::verify(&payload)` (the response builder
on `Error` is not under `src/`); a verification failure is "mapped to a
stable `invalid_reason` code; returned ... with `is_valid=false`". -/
def Error.verifyResponse (e : Error) (payload : PaymentPayload) :
    VerifyResponse :=
  { is_valid := false
    payer := payload.payload.authorization.from_addr
    invalid_reason := some e.to_code }

/-- Modelled from the spec: `Error::settle(&payload)` (not under `src/`); a
settlement failure carries the stable code with `success=false` and an empty
transaction. -/
def Error.settleResponse (e : Error) (payload : PaymentPayload) :
    SettlementResponse :=
  { success := false
    error_reason := some e.to_code
    transaction := none
    network := payload.network
    payer := payload.payload.authorization.from_addr }

/-- `EvmScheme::verify` (`PaymentScheme` impl). -/
def EvmScheme.verify (S : EvmScheme) (C : CryptoModel) (ch : EvmChainEnv)
    (req : VerifyRequest) : VerifyResponse :=
  match handle_verify S C ch req with
  | .ok _ =>
    { is_valid := true
      payer := req.payment_payload.payload.authorization.from_addr
      invalid_reason := none }
  | .error e => e.verifyResponse req.payment_payload

/-- `EvmScheme::settle` (`PaymentScheme` impl). -/
def EvmScheme.settle (S : EvmScheme) (ch : EvmChainEnv)
    (req : VerifyRequest) : SettlementResponse :=
  match handle_settle S ch req with
  | .ok txHash =>
    { success := true
      error_reason := none
      transaction := some txHash
      network := req.payment_payload.network
      payer := req.payment_payload.payload.authorization.from_addr }
  | .error e => e.settleResponse req.payment_payload

/-! ## Facilitator (`x402/src/facilitator.rs`) -/

/-- The facilitator's registry `identity = "{scheme}-{network}"` → scheme
(only the EVM scheme matters for the claims). -/
structure Facilitator where
  schemes : List (String × EvmScheme)

/-- `Facilitator::verify(req)`: dispatch by
`"{payload.scheme}-{payload.network}"`. -/
def Facilitator.verify (F : Facilitator) (C : CryptoModel) (ch : EvmChainEnv)
    (req : VerifyRequest) : VerifyResponse :=
  let identity := req.payment_payload.scheme ++ "-" ++ req.payment_payload.network
  match F.schemes.lookup identity with
  | some scheme => scheme.verify C ch req
  | none =>
    { is_valid := false
      invalid_reason := some Error.UnsupportedScheme.to_code
      payer := req.payment_payload.payload.authorization.from_addr }

/-- `Facilitator::settle(req)`: dispatch by the same identity — the source
dispatches directly to the scheme's settle, with no verification step. -/
def Facilitator.settle (F : Facilitator) (ch : EvmChainEnv)
    (req : VerifyRequest) : SettlementResponse :=
  let identity := req.payment_payload.scheme ++ "-" ++ req.payment_payload.network
  match F.schemes.lookup identity with
  | some scheme => scheme.settle ch req
  | none =>
    { success := false
      error_reason := some Error.UnsupportedScheme.to_code
      transaction := none
      network := req.payment_payload.network
      payer := req.payment_payload.payload.authorization.from_addr }

/-- Modelled from the spec: `VerifyResponse::to_settle(network, tx)` (not
under `src/`); it converts a verify failure into "a settlement failure
carrying the same reason". -/
def VerifyResponse.to_settle (v : VerifyResponse) (network : String)
    (tx : Option Nat) : SettlementResponse :=
  { success := v.is_valid
    error_reason := v.invalid_reason
    transaction := tx
    network := network
    payer := v.payer }

/-- The HTTP handler `x402_payment` (`api/src/api.rs:103-120`): verify,
return the failure as a settlement response when invalid, otherwise
settle. -/
def x402_payment (F : Facilitator) (C : CryptoModel) (ch : EvmChainEnv)
    (req : VerifyRequest) : SettlementResponse :=
  let res := F.verify C ch req
  if res.is_valid = false then res.to_settle req.payment_payload.network none
  else F.settle ch req

/-! ## Concrete instances used to evaluate the development on closed inputs -/

/-- Whether a sweep action is a `transferFrom`. -/
def SweepAction.isTransferFrom : SweepAction → Bool
  | .transferFrom _ _ _ => true
  | _ => false

/-- A registered token asset of the EVM "exact" scheme. -/
def exactAsset : EvmAsset :=
  { name := "USDC", version := "2", decimal := 6
    domain := { name := "USDC", version := "2", chainId := 8453,
                verifyingContract := 10 } }

/-- An EVM "exact" scheme with one registered token (address `10`). -/
def exactScheme : EvmScheme :=
  { scheme := "exact", network := "base", assets := [(10, exactAsset)] }

/-- A toy crypto model: the signature is the recovered address, a private
key is its own address.  It satisfies the sign/recover law. -/
def toyCrypto : CryptoModel :=
  { signingHash := fun _ _ => 0
    recoverPrehash := fun _ s => some s
    signHash := fun _ k => k
    addrOf := fun k => k }

/-- A chain oracle on which verification succeeds (`now = 50`). -/
def goodChain : EvmChainEnv :=
  { balanceOf := fun _ _ => some 1000
    authorizationState := fun _ _ _ => some false
    now := some 50
    twaSend := fun _ _ _ _ _ _ _ _ => some 7 }

/-- The same oracle observed after the authorization expired
(`now = 1000 > valid_before = 100`); settlement RPC still succeeds. -/
def expiredChain : EvmChainEnv :=
  { balanceOf := fun _ _ => some 1000
    authorizationState := fun _ _ _ => some false
    now := some 1000
    twaSend := fun _ _ _ _ _ _ _ _ => some 7 }

/-- A well-formed verify request against `exactScheme` (payer `42`, signed
with the toy model, value and required amount `100`, window `[0, 100]`). -/
def goodReq : VerifyRequest :=
  { payment_payload :=
      { scheme := "exact", network := "base"
        payload :=
          { signature := some 42
            authorization :=
              { from_addr := some 42, to_addr := some 5, value := some 100
                valid_after := some 0, valid_before := some 100
                nonce := some 3 } } }
    payment_requirements :=
      { scheme := "exact", network := "base", max_amount_required := some 100
        asset := some 10, pay_to := some 5 } }

/-- A facilitator with the EVM "exact" scheme registered. -/
def theFacilitator : Facilitator :=
  { schemes := [("exact-base", exactScheme)] }

/-- Sweep oracle of the C3 counterexample: balance `5`, fully allowed (no
approve step), both `transferFrom` receipts succeed. -/
def sweepTiny : SweepChain :=
  { gasPrice := some 100, balanceOf := some 5, allowance := some 5
    estimateApproveGas := none, sendNativeReceipt := none
    totalSupply := none, approveReceipt := none
    transferFromMerchant := some 77, transferFromCommission := some 88 }

/-- Sweep oracle with balance `500` and allowance `1000` (no approve step);
receipts succeed. -/
def sweepBig : SweepChain :=
  { gasPrice := some 100, balanceOf := some 500, allowance := some 1000
    estimateApproveGas := none, sendNativeReceipt := none
    totalSupply := none, approveReceipt := none
    transferFromMerchant := some 77, transferFromCommission := some 88 }

/-- Engine environment whose classification lookups all fail. -/
def dropEnv : EngineEnv :=
  { contains_address := none, no_transaction := none, deposited := none
    generate_eth := none, sweep := sweepTiny }

/-- Engine chain with no configured assets. -/
def dropChain : EngineChain :=
  { assets := [], admin := 9, commission := 1, commission_min := 10
    commission_max := 100 }

/-! # Theorems -/

/-- **C5** — For every `i32` amount `i ≥ 0` and every token decimal
`d ≥ 2`, converting `i` to atomic units and back is the identity:
`u256_to_i32 (i32_to_u256 i d) d = i`. -/
theorem claim5_codec_roundtrip (i : Int) (d : Nat) (h0 : 0 ≤ i)
    (hmax : i ≤ (I32MAX : Int)) (hd : 2 ≤ d) :
    u256_to_i32 (i32_to_u256 i d) d = i := by
  have hfit : i.toNat ≤ I32MAX := by
    simp only [I32MAX] at hmax ⊢
    omega
  unfold u256_to_i32 i32_to_u256
  by_cases h : 2 < d
  · have hp : 0 < 10 ^ (d - 2) := Nat.pos_pow_of_pos _ (by norm_num)
    simp only [if_pos h]
    rw [Nat.mul_div_cancel _ hp, if_pos hfit]
    exact Int.toNat_of_nonneg h0
  · have hd2 : d = 2 := by omega
    subst hd2
    simp only [if_neg h]
    norm_num
    rw [if_pos hmax]
    exact max_eq_left h0

/-- **C5 witness** — the round trip at `i = 12345`, `d = 6`. -/
theorem claim5_codec_roundtrip_witness :
    u256_to_i32 (i32_to_u256 12345 6) 6 = 12345 :=
  claim5_codec_roundtrip 12345 6 (by norm_num)
    (by norm_num [I32MAX]) (by norm_num)

/-- **C6 counterexample** — at `amount = 2^31`, `decimal = 2` the scaled
value exceeds `i32::MAX`; the claim says the function saturates to
`i32::MAX = 2147483647`, but the source's `try_into().unwrap_or(0)`
returns `0`. -/
theorem claim6_overflow_counterexample :
    u256_to_i32 2147483648 2 = 0 ∧ (0 : Int) ≠ 2147483647 := by
  constructor
  · norm_num [u256_to_i32, I32MAX]
  · norm_num

/-- **C6 (amended)** — `u256_to_i32 a d` equals `a / 10^(d−2)` when
`d ≥ 2` (resp. `a · 10^(2−d)` when `d < 2`), rounding toward zero; when
the mathematical result exceeds `i32::MAX` the function returns `0` (the
failed `i32` conversion falls back to `0`), not `i32::MAX`. -/
theorem claim6_scaling_amended (a d : Nat) :
    u256_to_i32 a d =
      if (if 2 ≤ d then a / 10 ^ (d - 2) else a * 10 ^ (2 - d)) ≤ I32MAX
      then ((if 2 ≤ d then a / 10 ^ (d - 2) else a * 10 ^ (2 - d)) : Int)
      else 0 := by
  unfold u256_to_i32
  by_cases h : 2 < d
  · simp [h, le_of_lt h]
  · by_cases h2 : 2 ≤ d
    · have hd : d = 2 := by omega
      subst hd
      norm_num
    · simp [h, h2]

/-- **C10** — a decoded ERC-20 `Transfer` log with no transaction hash is
not dropped: `handle_transfer_event` still emits a `Deposit` message,
substituting `B256::ZERO` (here `0`) for the hash, so all such logs share
the tx identifier `0`. -/
theorem claim10_zero_hash (index : Nat) (log : EvmLog) (f t v : Nat)
    (hdec : log.decoded = some (f, t, v))
    (hh : log.transaction_hash = none) :
    handle_transfer_event index log =
      .ok (.deposit index log.address t v 0) := by
  unfold handle_transfer_event
  rw [hdec, hh]
  rfl

/-- **C10 witness** — a concrete hashless log is emitted with tx id `0`. -/
theorem claim10_zero_hash_witness :
    handle_transfer_event 0 ⟨5, some (1, 2, 3), none⟩ =
      .ok (.deposit 0 5 2 3 0) :=
  claim10_zero_hash 0 ⟨5, some (1, 2, 3), none⟩ 1 2 3 rfl rfl

/-- Every `Scanned` cursor emitted by the loop exceeds the cursor the loop
started from. -/
lemma scan_run_gt (latency : Nat) (heads : List Nat) :
    ∀ (last x : Nat), x ∈ scan_run latency last heads → last < x := by
  induction heads with
  | nil =>
    intro last x hx
    simp [scan_run] at hx
  | cons hd tl ih =>
    intro last x hx
    by_cases hc : hd - latency ≤ last
    · simp only [scan_run, scan_iteration, if_pos hc] at hx
      exact ih last x hx
    · simp only [scan_run, scan_iteration, if_neg hc, List.mem_cons] at hx
      rcases hx with rfl | hx
      · omega
      · have := ih _ x hx
        omega

/-- **C7** — whenever `latest = head − latency` exceeds
`last_scanned_block`, the iteration scans exactly the range
`from = last + 1 .. to = min (from + 100) latest`, emits `Scanned to`,
sets the cursor to `to` (strictly above the old cursor); and over any run,
the emitted (hence persisted) cursor sequence is strictly increasing. -/
theorem claim7_scan_cursor :
    (∀ latency last head, last < head - latency →
      scan_iteration latency 100 last head =
        ⟨some (last + 1, min (last + 1 + 100) (head - latency)),
         some (min (last + 1 + 100) (head - latency)),
         min (last + 1 + 100) (head - latency),
         min (last + 1 + 100) (head - latency) - (last + 1) + 1⟩ ∧
      last < min (last + 1 + 100) (head - latency)) ∧
    (∀ latency last heads, (scan_run latency last heads).Chain' (· < ·)) := by
  constructor
  · intro latency last head hlt
    refine ⟨?_, by omega⟩
    unfold scan_iteration
    rw [if_neg (by omega)]
  · intro latency last heads
    induction heads generalizing last with
    | nil => simp [scan_run]
    | cons hd tl ih =>
      by_cases hc : hd - latency ≤ last
      · simp only [scan_run, scan_iteration, if_pos hc]
        exact ih last
      · simp only [scan_run, scan_iteration, if_neg hc]
        refine List.chain'_cons'.mpr ⟨?_, ih _⟩
        intro b hb
        exact scan_run_gt latency tl _ b (List.mem_of_mem_head? hb)

/-- **C7 witness** — one iteration at `latency = 3`, `last = 10`,
`head = 20`: the range is `11..17`, `Scanned 17` is emitted and the
cursor becomes `17 > 10`. -/
theorem claim7_scan_cursor_witness :
    scan_iteration 3 100 10 20 = ⟨some (11, 17), some 17, 17, 7⟩ ∧
    10 < (17 : Nat) := by
  have h := (claim7_scan_cursor.1 3 10 20 (by norm_num))
  refine ⟨?_, by norm_num⟩
  rw [h.1]
  norm_num

/-- **C8** — a `Deposit` message whose destination address is not indexed,
or whose tx hash was already seen, or whose token is not a configured
asset, is dropped before anything persists: no `deposited` row, no sweep
call and no `settled` record appear in the trace. -/
theorem claim8_classification_drops (env : EngineEnv) (chain : EngineChain)
    (token customer value tx : Nat) :
    (env.contains_address = none →
      handle_evm_deposit env chain token customer value tx = ([], .error ())) ∧
    (env.no_transaction = none →
      handle_evm_deposit env chain token customer value tx = ([], .error ())) ∧
    (chain.assets.lookup token = none →
      handle_evm_deposit env chain token customer value tx = ([], .error ())) := by
  refine ⟨?_, ?_, ?_⟩
  · intro h
    simp [handle_evm_deposit, h]
  · intro h
    rcases hca : env.contains_address with _ | ⟨mid, cid, ms⟩
    · simp [handle_evm_deposit, hca]
    · simp [handle_evm_deposit, hca, h]
  · intro h
    rcases hca : env.contains_address with _ | ⟨mid, cid, ms⟩
    · simp [handle_evm_deposit, hca]
    · rcases hnt : env.no_transaction with _ | u
      · simp [handle_evm_deposit, hca, hnt]
      · rcases ms with _ | merchant
        · simp [handle_evm_deposit, hca, hnt]
        · simp [handle_evm_deposit, hca, hnt, h]

/-- **C8 witness** — the all-failing environment drops the message with an
empty persistence trace. -/
theorem claim8_classification_drops_witness :
    handle_evm_deposit dropEnv dropChain 10 1 500 3 = ([], .error ()) :=
  (claim8_classification_drops dropEnv dropChain 10 1 500 3).1 rfl

/-- The approve phase of the sweep issues no `transferFrom`. -/
lemma approveStep_no_tf (ch : SweepChain) (customer maccount : Nat)
    (na : Bool) (g : Nat) :
    ∀ a ∈ (approveStep ch customer maccount na g).1,
      a.isTransferFrom = false := by
  intro a ha
  unfold approveStep at ha
  split at ha
  · split at ha
    · simp at ha
      subst ha
      rfl
    · split at ha <;>
      · simp at ha
        rcases ha with rfl | rfl <;> rfl
  · simp at ha

/-- Anatomy of a successful sweep: the balance is `b ≠ 0`, the returned tx
hash is the merchant `transferFrom` receipt, the fee is the source's clamp
expression, `real` is the wrapping subtraction, and the trace ends with the
merchant `transferFrom` followed by the commission `transferFrom` exactly
when `fee > 0`. -/
lemma transfer_ok_spec (ch : SweepChain) (customer merchant maccount : Nat)
    (rate : Int) (cmin cmax : Nat) (tr : List SweepAction) (r h : Nat)
    (hok : transfer ch customer merchant maccount rate cmin cmax =
      (tr, .ok (r, h))) :
    ∃ b, ch.balanceOf = some b ∧ b ≠ 0 ∧ ch.transferFromMerchant = some h ∧
      ∃ fee, fee = (if 0 < rate then
          max (min (b * rate.toNat / 100) cmax) cmin else 0) ∧
        r = (b + (U256MOD - fee % U256MOD)) % U256MOD ∧
        ∃ tr0, (∀ a ∈ tr0, a.isTransferFrom = false) ∧
          tr = tr0 ++ [.transferFrom customer merchant r] ++
            (if 0 < fee then [SweepAction.transferFrom customer maccount fee]
             else []) := by
  unfold transfer at hok
  dsimp only at hok
  split at hok
  · simp at hok
  case _ gp hgp =>
  split at hok
  · simp at hok
  case _ b hb =>
  split at hok
  · simp at hok
  case _ hb0 =>
  split at hok
  · simp at hok
  case _ ap hap =>
  split at hok
  · simp at hok
  case _ ag hag =>
  split at hok
  · simp at hok
  case _ tr0 u hstep =>
  split at hok
  · simp at hok
  case _ txh htf =>
  refine ⟨b, hb, hb0, ?_⟩
  set fee := (if 0 < rate then max (min (b * rate.toNat / 100) cmax) cmin
    else 0) with hfee
  have hnt := approveStep_no_tf ch customer maccount (decide (ap < b)) ag
  rw [hstep] at hnt
  split at hok
  case _ hpos =>
    split at hok
    · simp at hok
    case _ w hcomm =>
    rw [Prod.mk.injEq] at hok
    obtain ⟨htr, hexc⟩ := hok
    rw [Except.ok.injEq, Prod.mk.injEq] at hexc
    obtain ⟨hr, hh⟩ := hexc
    rw [← hh]
    refine ⟨htf, fee, hfee, hr.symm, tr0, hnt, ?_⟩
    rw [← htr, if_pos hpos, ← hr]
  case _ hpos =>
    rw [Prod.mk.injEq] at hok
    obtain ⟨htr, hexc⟩ := hok
    rw [Except.ok.injEq, Prod.mk.injEq] at hexc
    obtain ⟨hr, hh⟩ := hexc
    rw [← hh]
    refine ⟨htf, fee, hfee, hr.symm, tr0, hnt, ?_⟩
    rw [← htr, if_neg hpos, ← hr, List.append_nil]

/-- **C3 counterexample** — with `balance = 5`, `commission_rate = 1`,
`commission_min = 10`, `commission_max = 100`, the clamp raises the fee to
`10 > 5 = balance`: the claim that the fee is at most the balance fails,
and `real = balance − fee` wraps to `2^256 − 5`. -/
theorem claim3_fee_le_balance_counterexample :
    sweepTiny.balanceOf = some 5 ∧
    (transfer sweepTiny 1 2 9 1 10 100).1 =
      [.transferFrom 1 2 (2 ^ 256 - 5), .transferFrom 1 9 10] ∧
    (transfer sweepTiny 1 2 9 1 10 100).2 = .ok (2 ^ 256 - 5, 77) ∧
    (5 : Nat) < 10 :=
  ⟨rfl, rfl, rfl, by norm_num⟩

/-- **C3 (amended)** — for a successful sweep with `0 < commission_rate ≤
100` and **`commission_min ≤ balance`**, the fee is at most the balance and
the `U256` subtraction does not wrap: `real = balance − fee`.  (Without
`commission_min ≤ balance` the clamp can push the fee above the balance and
the subtraction wraps, as the counterexample shows.) -/
theorem claim3_fee_le_balance_amended (ch : SweepChain)
    (customer merchant maccount : Nat) (rate : Int) (cmin cmax : Nat)
    (tr : List SweepAction) (r h b : Nat)
    (hb : ch.balanceOf = some b) (hb256 : b < U256MOD)
    (hrate : 0 < rate) (hrate100 : rate ≤ 100) (hmin : cmin ≤ b)
    (hok : transfer ch customer merchant maccount rate cmin cmax =
      (tr, .ok (r, h))) :
    ∃ fee, fee = max (min (b * rate.toNat / 100) cmax) cmin ∧
      fee ≤ b ∧ r = b - fee := by
  obtain ⟨b2, hb2, hb0, htf, fee, hfee, hr, -⟩ :=
    transfer_ok_spec ch customer merchant maccount rate cmin cmax tr r h hok
  rw [hb] at hb2
  injection hb2 with hbb
  subst hbb
  rw [if_pos hrate] at hfee
  have hr100 : rate.toNat ≤ 100 := by omega
  have hraw : b * rate.toNat / 100 ≤ b := by
    calc b * rate.toNat / 100 ≤ b * 100 / 100 :=
          Nat.div_le_div_right (Nat.mul_le_mul_left b hr100)
    _ = b := by omega
  have hfee_le : fee ≤ b := by
    rw [hfee]
    exact max_le (le_trans (min_le_left _ _) hraw) hmin
  refine ⟨fee, hfee, hfee_le, ?_⟩
  rw [hr]
  have hfm : fee % U256MOD = fee :=
    Nat.mod_eq_of_lt (lt_of_le_of_lt hfee_le hb256)
  rw [hfm]
  have hsplit : b + (U256MOD - fee) = b - fee + U256MOD := by
    have : fee ≤ U256MOD := le_of_lt (lt_of_le_of_lt hfee_le hb256)
    omega
  rw [hsplit, Nat.add_mod_right]
  exact Nat.mod_eq_of_lt (lt_of_le_of_lt (Nat.sub_le b fee) hb256)

/-- **C3 amended witness** — balance `500`, rate `10`, `commission_min = 5
≤ 500`: the fee is `50 ≤ 500` and `real = 450` without wrapping. -/
theorem claim3_fee_le_balance_amended_witness :
    ∃ fee, fee = max (min (500 * (10 : Int).toNat / 100) 100) 5 ∧
      fee ≤ 500 ∧ (450 : Nat) = 500 - fee :=
  claim3_fee_le_balance_amended sweepBig 1 2 9 10 5 100
    [.transferFrom 1 2 450, .transferFrom 1 9 50] 450 77 500 rfl
    (by norm_num [U256MOD]) (by norm_num) (by norm_num) (by norm_num) rfl

/-- **C4** — in a successful sweep: the returned hash is the merchant
`transferFrom` receipt; with `commission_rate = 0` the fee is `0`, the
merchant receives the full balance and no commission `transferFrom` is
issued; with `commission_rate > 0` the fee is
`max (min (balance·rate/100) commission_max) commission_min` and the
commission `transferFrom` to the admin is issued exactly when `fee > 0`,
after the merchant `transferFrom`. -/
theorem claim4_commission_split (ch : SweepChain)
    (customer merchant maccount : Nat) (rate : Int) (cmin cmax : Nat)
    (tr : List SweepAction) (r h b : Nat)
    (hb : ch.balanceOf = some b) (hb256 : b < U256MOD)
    (hok : transfer ch customer merchant maccount rate cmin cmax =
      (tr, .ok (r, h))) :
    ch.transferFromMerchant = some h ∧
    (rate = 0 → r = b ∧
      tr.filter (fun a => a.isTransferFrom) =
        [.transferFrom customer merchant b]) ∧
    (0 < rate → ∃ fee,
      fee = max (min (b * rate.toNat / 100) cmax) cmin ∧
      tr.filter (fun a => a.isTransferFrom) =
        SweepAction.transferFrom customer merchant r ::
          (if 0 < fee then [SweepAction.transferFrom customer maccount fee]
           else [])) := by
  obtain ⟨b2, hb2, hb0, htf, fee, hfee, hr, tr0, hnt, htr⟩ :=
    transfer_ok_spec ch customer merchant maccount rate cmin cmax tr r h hok
  rw [hb] at hb2
  injection hb2 with hbb
  subst hbb
  have hfilter0 : tr0.filter (fun a => a.isTransferFrom) = [] :=
    List.filter_eq_nil_iff.mpr (by
      intro a ha
      simp [hnt a ha])
  refine ⟨htf, ?_, ?_⟩
  · intro hrate0
    rw [hrate0] at hfee
    norm_num at hfee
    subst hfee
    have hrr : r = b := by
      rw [hr]
      simp [Nat.mod_eq_of_lt hb256, Nat.add_mod_right]
    subst hrr
    rw [htr]
    simp [List.filter_append, hfilter0, SweepAction.isTransferFrom]
    exact hnt
  · intro hrate
    rw [if_pos hrate] at hfee
    refine ⟨fee, hfee, ?_⟩
    rw [htr]
    by_cases hf : 0 < fee
    · simp [List.filter_append, hfilter0, if_pos hf,
        SweepAction.isTransferFrom]
      exact hnt
    · simp [List.filter_append, hfilter0, if_neg hf,
        SweepAction.isTransferFrom]
      exact hnt

/-- **C4 witness** — sweep with `commission_rate = 0` on balance `500`:
the merchant gets `500`, the trace holds a single `transferFrom` and the
returned hash is the merchant receipt `77`. -/
theorem claim4_commission_split_witness :
    (500 : Nat) = 500 ∧
    (List.filter (fun a => a.isTransferFrom)
        [SweepAction.transferFrom 1 2 500]) =
      [SweepAction.transferFrom 1 2 500] :=
  (claim4_commission_split sweepBig 1 2 9 0 10 100
    [.transferFrom 1 2 500] 500 77 500 rfl (by norm_num [U256MOD])
    rfl).2.1 rfl

/-- A successful `verify_authorization` means the recovered address equals
the parsed `auth.from`. -/
lemma verify_authorization_ok_spec (C : CryptoModel) (d : Eip712Domain)
    (auth : Authorization) (sig : Nat)
    (hv : verify_authorization C d auth sig = .ok ()) :
    ∃ a twa, auth.from_addr = some a ∧
      TransferWithAuthorization.fromAuth auth = .ok twa ∧
      C.recoverPrehash (C.signingHash d twa) sig = some a := by
  unfold verify_authorization at hv
  split at hv
  · simp at hv
  case _ a ha =>
  split at hv
  · simp at hv
  case _ twa htwa =>
  split at hv
  · simp at hv
  case _ rec hrec =>
  split at hv
  case _ heq => exact ⟨a, twa, ha, htwa, heq ▸ hrec⟩
  case _ => simp at hv

/-- A scheme `verify` response with `is_valid = true` comes from a
successful `handle_verify`. -/
lemma evm_verify_valid (S : EvmScheme) (C : CryptoModel) (ch : EvmChainEnv)
    (req : VerifyRequest)
    (h : (EvmScheme.verify S C ch req).is_valid = true) :
    handle_verify S C ch req = .ok () := by
  unfold EvmScheme.verify at h
  split at h
  case _ u heq =>
    cases u
    exact heq
  case _ e heq =>
    simp [Error.verifyResponse] at h

/-- **C2** — whenever the EVM "exact" scheme's `verify` answers
`is_valid = true`, all six verification facts held: the EIP-712 recovered
signer equals `auth.from`; `balance(auth.from) ≥ auth.value`;
`auth.value ≥ max_amount_required`; `valid_after ≤ now ≤ valid_before`;
`auth.to = pay_to`; and `authorizationState(auth.from, auth.nonce)` was
`false`. -/
theorem claim2_verify_success (S : EvmScheme) (C : CryptoModel)
    (ch : EvmChainEnv) (req : VerifyRequest)
    (hvalid : (EvmScheme.verify S C ch req).is_valid = true) :
    ∃ token asset sig from_addr twa balance value required now va vb
        to_addr payTo nonce,
      req.payment_requirements.asset = some token ∧
      S.assets.lookup token = some asset ∧
      req.payment_payload.payload.signature = some sig ∧
      req.payment_payload.payload.authorization.from_addr = some from_addr ∧
      TransferWithAuthorization.fromAuth
        req.payment_payload.payload.authorization = .ok twa ∧
      C.recoverPrehash (C.signingHash asset.domain twa) sig = some from_addr ∧
      ch.balanceOf token from_addr = some balance ∧
      parseU256 req.payment_payload.payload.authorization.value = some value ∧
      value ≤ balance ∧
      parseU256 req.payment_requirements.max_amount_required = some required ∧
      required ≤ value ∧
      ch.now = some now ∧
      parseU64 req.payment_payload.payload.authorization.valid_after = some va ∧
      parseU64 req.payment_payload.payload.authorization.valid_before = some vb ∧
      va ≤ now ∧ now ≤ vb ∧
      req.payment_payload.payload.authorization.to_addr = some to_addr ∧
      req.payment_requirements.pay_to = some payTo ∧ to_addr = payTo ∧
      req.payment_payload.payload.authorization.nonce = some nonce ∧
      ch.authorizationState token from_addr nonce = some false := by
  have hv := evm_verify_valid S C ch req hvalid
  unfold handle_verify at hv
  rcases htok : req.payment_requirements.asset with _ | token
  · rw [htok] at hv
    exact Except.noConfusion hv
  rw [htok] at hv
  dsimp only at hv
  rcases hsig : req.payment_payload.payload.signature with _ | sig
  · rw [hsig] at hv
    exact Except.noConfusion hv
  rw [hsig] at hv
  dsimp only at hv
  rcases hasset : S.assets.lookup token with _ | asset
  · rw [hasset] at hv
    exact Except.noConfusion hv
  rw [hasset] at hv
  dsimp only at hv
  by_cases hvaFail : (verify_authorization C asset.domain req.payment_payload.payload.authorization sig).isOk = false
  · rw [if_pos hvaFail] at hv
    exact Except.noConfusion hv
  rw [if_neg hvaFail] at hv
  rcases hfrom : req.payment_payload.payload.authorization.from_addr with _ | from_addr
  · rw [hfrom] at hv
    exact Except.noConfusion hv
  rw [hfrom] at hv
  dsimp only at hv
  rcases hbal : ch.balanceOf token from_addr with _ | balance
  · rw [hbal] at hv
    exact Except.noConfusion hv
  rw [hbal] at hv
  dsimp only at hv
  rcases hval : parseU256 req.payment_payload.payload.authorization.value with _ | value
  · rw [hval] at hv
    exact Except.noConfusion hv
  rw [hval] at hv
  dsimp only at hv
  rcases hreq : parseU256 req.payment_requirements.max_amount_required with _ | required
  · rw [hreq] at hv
    exact Except.noConfusion hv
  rw [hreq] at hv
  dsimp only at hv
  by_cases hlt1 : balance < value
  · rw [if_pos hlt1] at hv
    exact Except.noConfusion hv
  rw [if_neg hlt1] at hv
  by_cases hlt2 : value < required
  · rw [if_pos hlt2] at hv
    exact Except.noConfusion hv
  rw [if_neg hlt2] at hv
  rcases hnow : ch.now with _ | now
  · rw [hnow] at hv
    exact Except.noConfusion hv
  rw [hnow] at hv
  dsimp only at hv
  rcases hvaft : parseU64 req.payment_payload.payload.authorization.valid_after with _ | va
  · rw [hvaft] at hv
    exact Except.noConfusion hv
  rw [hvaft] at hv
  dsimp only at hv
  rcases hvbef : parseU64 req.payment_payload.payload.authorization.valid_before with _ | vb
  · rw [hvbef] at hv
    exact Except.noConfusion hv
  rw [hvbef] at hv
  dsimp only at hv
  by_cases hlt3 : now < va
  · rw [if_pos hlt3] at hv
    exact Except.noConfusion hv
  rw [if_neg hlt3] at hv
  by_cases hlt4 : vb < now
  · rw [if_pos hlt4] at hv
    exact Except.noConfusion hv
  rw [if_neg hlt4] at hv
  rcases hto : req.payment_payload.payload.authorization.to_addr with _ | to_addr
  · rw [hto] at hv
    exact Except.noConfusion hv
  rw [hto] at hv
  dsimp only at hv
  rcases hpay : req.payment_requirements.pay_to with _ | payTo
  · rw [hpay] at hv
    exact Except.noConfusion hv
  rw [hpay] at hv
  dsimp only at hv
  by_cases hne : to_addr ≠ payTo
  · rw [if_pos hne] at hv
    exact Except.noConfusion hv
  rw [if_neg hne] at hv
  rcases hnonce : req.payment_payload.payload.authorization.nonce with _ | nonce
  · rw [hnonce] at hv
    exact Except.noConfusion hv
  rw [hnonce] at hv
  dsimp only at hv
  rcases hstate : ch.authorizationState token from_addr nonce with _ | is_used
  · rw [hstate] at hv
    exact Except.noConfusion hv
  rw [hstate] at hv
  dsimp only at hv
  by_cases hused : is_used = true
  · rw [if_pos hused] at hv
    exact Except.noConfusion hv
  rw [if_neg hused] at hv
  have hva : verify_authorization C asset.domain
      req.payment_payload.payload.authorization sig = .ok () := by
    rcases hx : verify_authorization C asset.domain
        req.payment_payload.payload.authorization sig with e | u
    · rw [hx] at hvaFail
      simp [Except.isOk, Except.toBool] at hvaFail
    · cases u
      rfl
  obtain ⟨a, twa, ha, htwa, hrec⟩ :=
    verify_authorization_ok_spec C asset.domain
      req.payment_payload.payload.authorization sig hva
  rw [hfrom] at ha
  injection ha with haa
  subst haa
  refine ⟨token, asset, sig, from_addr, twa, balance, value, required, now,
    va, vb, to_addr, payTo, nonce, rfl, hasset, rfl, rfl, htwa, hrec,
    hbal, rfl, by omega, rfl, by omega, rfl, rfl, rfl, by omega,
    by omega, rfl, rfl, not_not.mp hne, rfl, ?_⟩
  rw [hstate]
  simp at hused
  rw [hused]

/-- **C2 witness** — a concrete request on which `verify` succeeds; all
six facts are produced by the theorem. -/
theorem claim2_verify_success_witness :
    ∃ token asset sig from_addr twa balance value required now va vb
        to_addr payTo nonce,
      goodReq.payment_requirements.asset = some token ∧
      exactScheme.assets.lookup token = some asset ∧
      goodReq.payment_payload.payload.signature = some sig ∧
      goodReq.payment_payload.payload.authorization.from_addr
        = some from_addr ∧
      TransferWithAuthorization.fromAuth
        goodReq.payment_payload.payload.authorization = .ok twa ∧
      toyCrypto.recoverPrehash (toyCrypto.signingHash asset.domain twa) sig
        = some from_addr ∧
      goodChain.balanceOf token from_addr = some balance ∧
      parseU256 goodReq.payment_payload.payload.authorization.value
        = some value ∧
      value ≤ balance ∧
      parseU256 goodReq.payment_requirements.max_amount_required
        = some required ∧
      required ≤ value ∧
      goodChain.now = some now ∧
      parseU64 goodReq.payment_payload.payload.authorization.valid_after
        = some va ∧
      parseU64 goodReq.payment_payload.payload.authorization.valid_before
        = some vb ∧
      va ≤ now ∧ now ≤ vb ∧
      goodReq.payment_payload.payload.authorization.to_addr = some to_addr ∧
      goodReq.payment_requirements.pay_to = some payTo ∧ to_addr = payTo ∧
      goodReq.payment_payload.payload.authorization.nonce = some nonce ∧
      goodChain.authorizationState token from_addr nonce = some false :=
  claim2_verify_success exactScheme toyCrypto goodChain goodReq rfl

/-- **C9** — for every domain, authorization and private key whose address
is the parsed `auth.from`, verifying a freshly produced signature succeeds
and recovers `addr(k)`; the sign/recover law of the signature scheme is the
stated hypothesis on the crypto model. -/
theorem claim9_sign_verify_roundtrip (C : CryptoModel)
    (domain : Eip712Domain) (auth : Authorization) (k sig : Nat)
    (hlaw : ∀ hsh key,
      C.recoverPrehash hsh (C.signHash hsh key) = some (C.addrOf key))
    (hfrom : auth.from_addr = some (C.addrOf k))
    (hsig : sign_authorization C domain auth k = .ok sig) :
    verify_authorization C domain auth sig = .ok () ∧
    ∃ twa, TransferWithAuthorization.fromAuth auth = .ok twa ∧
      C.recoverPrehash (C.signingHash domain twa) sig =
        some (C.addrOf k) := by
  unfold sign_authorization at hsig
  split at hsig
  · exact Except.noConfusion hsig
  case _ twa htwa =>
  rw [Except.ok.injEq] at hsig
  subst hsig
  refine ⟨?_, twa, htwa, hlaw _ _⟩
  unfold verify_authorization
  rw [hfrom, htwa]
  dsimp only
  rw [hlaw]
  simp

/-- **C9 witness** — the round trip on the toy crypto model and the
concrete authorization of `goodReq` (key `42`). -/
theorem claim9_sign_verify_roundtrip_witness :
    verify_authorization toyCrypto exactAsset.domain
      goodReq.payment_payload.payload.authorization 42 = .ok () ∧
    ∃ twa, TransferWithAuthorization.fromAuth
        goodReq.payment_payload.payload.authorization = .ok twa ∧
      toyCrypto.recoverPrehash
          (toyCrypto.signingHash exactAsset.domain twa) 42 =
        some (toyCrypto.addrOf 42) :=
  claim9_sign_verify_roundtrip toyCrypto exactAsset.domain
    goodReq.payment_payload.payload.authorization 42 42
    (fun _ _ => rfl) rfl rfl

/-- **C1 counterexample** — `Facilitator::settle` does not verify first: on
a request whose verification fails (authorization expired,
`invalid_reason = invalid_exact_evm_payload_authorization_valid_before`),
`settle` still dispatches to the scheme's on-chain settlement and returns
`success = true` with no `error_reason`. -/
theorem claim1_settle_skips_verify_counterexample :
    (Facilitator.verify theFacilitator toyCrypto expiredChain
        goodReq).is_valid = false ∧
    (Facilitator.verify theFacilitator toyCrypto expiredChain
        goodReq).invalid_reason =
      some "invalid_exact_evm_payload_authorization_valid_before" ∧
    (Facilitator.settle theFacilitator expiredChain goodReq).success
      = true ∧
    (Facilitator.settle theFacilitator expiredChain goodReq).error_reason
      = none ∧
    (Facilitator.settle theFacilitator expiredChain goodReq).transaction
      = some 7 :=
  ⟨rfl, rfl, rfl, rfl, rfl⟩

/-- **C1 (amended)** — the verify-then-settle sequencing lives one layer
above the facilitator, in the HTTP handler `x402_payment`
(`api/src/api.rs:103-120`): it first calls `Facilitator::verify`; when
`is_valid = false` it returns a failed settlement carrying the same
reason, and it calls `Facilitator::settle` (which dispatches directly to
the scheme) only when verification succeeds. -/
theorem claim1_verify_then_settle_amended (F : Facilitator)
    (C : CryptoModel) (ch : EvmChainEnv) (req : VerifyRequest) :
    ((F.verify C ch req).is_valid = false →
      x402_payment F C ch req =
        (F.verify C ch req).to_settle req.payment_payload.network none ∧
      (x402_payment F C ch req).success = false ∧
      (x402_payment F C ch req).error_reason =
        (F.verify C ch req).invalid_reason) ∧
    ((F.verify C ch req).is_valid = true →
      x402_payment F C ch req = F.settle ch req) := by
  constructor
  · intro h
    unfold x402_payment
    dsimp only
    rw [h]
    simp [VerifyResponse.to_settle, h]
  · intro h
    unfold x402_payment
    dsimp only
    rw [h]
    simp

/-- **C1 amended witness** — on the expired request the payment handler
returns a failed settlement carrying verify's reason. -/
theorem claim1_verify_then_settle_amended_witness :
    (x402_payment theFacilitator toyCrypto expiredChain goodReq).success
      = false ∧
    (x402_payment theFacilitator toyCrypto expiredChain
        goodReq).error_reason =
      some "invalid_exact_evm_payload_authorization_valid_before" := by
  have h := (claim1_verify_then_settle_amended theFacilitator toyCrypto
    expiredChain goodReq).1 rfl
  exact ⟨h.2.1, h.2.2.trans rfl⟩

end ZeroPay
